import Mathlib

/-!
Shallow embedding of the account-security core of the
knowledge-pathways backend.

Sources embedded here:
* `src/app/models/user.py` — the `User` model with its security fields,
  `User.authenticate`, `User.is_locked`, `User.can_login`.
* `src/app/api/v1/endpoints/pathways.py` / `content.py` — the ownership
  checks guarding update/delete.
* `src/functions/api.py` — the secondary (Firebase-function) login path
  with its SHA-256 password check.
* `src/app/core/config.py` — the `Settings` values relevant to lockout.

Conventions: timestamps are natural numbers counted in minutes
(`datetime.utcnow()` becomes a single `now : Nat` parameter per
evaluation; `timedelta(minutes=15)` becomes `+ 15`).  The password
verifier `app.core.password.verify_password` is imported by
`user.py` but its module is not among the sources, so `authenticate`
takes the verifier as an explicit function parameter; no claim depends
on its internals.  Hash functions are likewise passed as parameters.
-/

namespace KP

/-- `UserRole` enumeration from `src/app/models/user.py`. -/
inductive UserRole where
  | student
  | mentor
  | admin
deriving DecidableEq, Repr

/-- The security-relevant columns of the `users` table
(`src/app/models/user.py`).  Profile columns that no claim touches are
omitted; every field kept here carries its source name. -/
structure User where
  id : Nat
  email : String
  hashed_password : String
  is_active : Bool
  role : UserRole
  failed_login_attempts : Nat
  last_failed_login : Option Nat
  locked_until : Option Nat
  last_login : Option Nat
  email_verification_token : Option String
  email_verification_token_expires : Option Nat
  password_reset_token : Option String
  password_reset_token_expires : Option Nat
deriving DecidableEq, Repr

/-- `User.is_locked` (user.py lines 107-111): locked iff `locked_until`
is set and strictly later than the current time. -/
def User.is_locked (u : User) (now : Nat) : Bool :=
  match u.locked_until with
  | some t => decide (t > now)
  | none => false

/-- `User.can_login` (user.py lines 113-115): active and not locked. -/
def User.can_login (u : User) (now : Nat) : Bool :=
  u.is_active && !(u.is_locked now)

/-- `User.get_by_email` (user.py lines 70-74): first row whose email
matches (the email column is declared unique). -/
def get_by_email (db : List User) (email : String) : Option User :=
  db.find? (fun u => u.email == email)

/-- `User.authenticate` (user.py lines 75-105), for the case where the
email lookup found a record.  Returns the value handed back to the
caller (`none` on any failure, the mutated user on success) together
with the stored record after the evaluation's commits.

Source behaviour embedded line by line:
1. if `locked_until` is set and `> now`, return `None` with no mutation;
2. if the password does not verify, increment `failed_login_attempts`,
   set `last_failed_login = now`, and when the updated counter reaches
   the literal 5 set `locked_until = now + 15` minutes; return `None`;
3. on a match, only when `failed_login_attempts > 0`: reset the counter
   to 0, clear `locked_until`, set `last_login = now`; return the user. -/
def authenticate (verify : String → String → Bool) (now : Nat)
    (user : User) (password : String) : Option User × User :=
  if user.is_locked now then
    (none, user)
  else if !(verify password user.hashed_password) then
    let attempts := user.failed_login_attempts + 1
    let user1 : User :=
      { user with
        failed_login_attempts := attempts
        last_failed_login := some now
        locked_until := if 5 ≤ attempts then some (now + 15) else user.locked_until }
    (none, user1)
  else if 0 < user.failed_login_attempts then
    let user1 : User :=
      { user with
        failed_login_attempts := 0
        locked_until := none
        last_login := some now }
    (some user1, user1)
  else
    (some user, user)

/-- Decision type of the per-endpoint ownership guard. -/
inductive AuthzDecision where
  | allowed
  | forbidden
deriving DecidableEq, Repr

/-- A knowledge pathway as the guard sees it (`creator_id` column,
`src/app/models/pathway.py` via `pathways.py`). -/
structure Pathway where
  id : Nat
  creator_id : Nat
deriving DecidableEq, Repr

/-- A learning-content record as the guard sees it (`creator_id` column,
`src/app/models/content.py` via `content.py`). -/
structure Content where
  id : Nat
  creator_id : Nat
deriving DecidableEq, Repr

/-- Ownership check of `update_pathway` (pathways.py lines 86-90):
403 Forbidden iff `pathway.creator_id != current_user.id`; no other
field of the caller is consulted. -/
def update_pathway_authz (current_user : User) (pathway : Pathway) : AuthzDecision :=
  if pathway.creator_id ≠ current_user.id then .forbidden else .allowed

/-- Ownership check of `delete_content` (content.py lines 129-133):
403 Forbidden iff `content.creator_id != current_user.id`. -/
def delete_content_authz (current_user : User) (content : Content) : AuthzDecision :=
  if content.creator_id ≠ current_user.id then .forbidden else .allowed

/-- The lockout-relevant configuration of `Settings`
(`src/app/core/config.py` lines 53-54), with the declared defaults.
Only the two fields the lockout claims mention are kept. -/
structure Settings where
  LOGIN_ATTEMPT_LIMIT : Nat
  LOGIN_ATTEMPT_WINDOW_MINUTES : Nat
deriving DecidableEq, Repr

/-- The module-level `settings = Settings()` instance with the defaults
declared in `config.py`: limit 5, window 15 minutes. -/
def defaultSettings : Settings :=
  { LOGIN_ATTEMPT_LIMIT := 5, LOGIN_ATTEMPT_WINDOW_MINUTES := 15 }

/-- Modelled from the spec: the Token Lifecycle Manager (§4.4) is absent
from the sources — only the token column declarations
(`user.py` lines 46-49: stored hash plus expiry, each nullable) exist.
One account's token slot for a given purpose: the stored hash of the
token value and its expiry timestamp. -/
structure TokenSlot where
  hash : Option String
  expires : Option Nat
deriving DecidableEq, Repr

/-- Modelled from the spec (§4.4 `issue`): store only the hash of the
generated value plus its expiry `now + ttl`. -/
def issueToken (hashOf : String → String) (now ttl : Nat) (value : String) : TokenSlot :=
  { hash := some (hashOf value), expires := some (now + ttl) }

/-- Modelled from the spec (§4.4 `validate`): hash the supplied value,
compare with the stored hash, check not-expired; on success consume the
token by clearing the stored hash (and its expiry) in the same step.
Returns whether validation succeeded together with the slot afterwards. -/
def validateToken (hashOf : String → String) (now : Nat)
    (slot : TokenSlot) (value : String) : Bool × TokenSlot :=
  match slot.hash, slot.expires with
  | some h, some e =>
      if h == hashOf value && decide (now < e) then
        (true, { hash := none, expires := none })
      else
        (false, slot)
  | _, _ => (false, slot)

/-- A row of the Supabase `users` table as the Firebase-function login
path reads it (`src/functions/api.py`): the fields it selects plus the
SQLAlchemy security columns, which that path never consults. -/
structure FnUser where
  id : Nat
  email : String
  password_hash : String
  full_name : String
  is_active : Bool
  failed_login_attempts : Nat
  locked_until : Option Nat
  last_login : Option Nat
deriving DecidableEq, Repr

/-- `verify_password` from `src/functions/api.py` lines 61-63:
SHA-256 of the submitted password compared with the stored hash string.
The hash function itself is a parameter. -/
def fnVerifyPassword (sha256 : String → String) (password hashed : String) : Bool :=
  sha256 password == hashed

/-- The credential decision of `login` in `src/functions/api.py`
lines 178-279: select the first row matching the email; 401 when absent,
200 when the SHA-256 check passes, 401 otherwise.  The handler issues no
table update, so the store is returned untouched. -/
def fnLogin (sha256 : String → String) (db : List FnUser)
    (email password : String) : Nat × List FnUser :=
  match db.find? (fun u => u.email == email) with
  | none => (401, db)
  | some u =>
      if fnVerifyPassword sha256 password u.password_hash then
        (200, db)
      else
        (401, db)

/-- Builds a `User` with the given security state and default values for
the fields no claim varies. -/
def mkUser (id attempts : Nat) (lock : Option Nat) (active : Bool) (role : UserRole) : User :=
  { id := id
    email := "u@x"
    hashed_password := "h"
    is_active := active
    role := role
    failed_login_attempts := attempts
    last_failed_login := none
    locked_until := lock
    last_login := none
    email_verification_token := none
    email_verification_token_expires := none
    password_reset_token := none
    password_reset_token_expires := none }

/-- A Supabase row for the bypass witness: active, unlocked, counter 0. -/
def fnUserA : FnUser :=
  { id := 1
    email := "e@x"
    password_hash := "p"
    full_name := "A"
    is_active := true
    failed_login_attempts := 0
    locked_until := none
    last_login := none }

/-- A Supabase row agreeing with `fnUserA` on the password hash but
inactive, locked until minute 99, with counter 7. -/
def fnUserB : FnUser :=
  { id := 2
    email := "e@x"
    password_hash := "p"
    full_name := "B"
    is_active := false
    failed_login_attempts := 7
    locked_until := some 99
    last_login := some 42 }

/-- C1: the claim states that the guard allows a caller that owns the
resource OR has the administrator role.  The code consults only the
owner id: an administrator (id 2) who does not own the resource
(creator id 1) is rejected by both guards, refuting the claim. -/
theorem claim_C1_counterexample :
    ¬ ∀ (caller : User) (p : Pathway) (c : Content),
        (update_pathway_authz caller p = .allowed ↔
          (caller.id = p.creator_id ∨ caller.role = .admin)) ∧
        (delete_content_authz caller c = .allowed ↔
          (caller.id = c.creator_id ∨ caller.role = .admin)) := by
  intro h
  have h2 := (h (mkUser 2 0 none true .admin) ⟨7, 1⟩ ⟨7, 1⟩).1.mpr (Or.inr rfl)
  exact absurd h2 (by decide)

/-- C1 (amended): the mutating-endpoint guards return Allowed exactly
when the caller's id equals the resource's creator id; the caller's role
is never consulted, so administrators get no bypass. -/
theorem claim_C1_owner_only (caller : User) (p : Pathway) (c : Content) :
    (update_pathway_authz caller p = .allowed ↔ caller.id = p.creator_id) ∧
    (delete_content_authz caller c = .allowed ↔ caller.id = c.creator_id) ∧
    (∀ r : UserRole,
      update_pathway_authz { caller with role := r } p = update_pathway_authz caller p ∧
      delete_content_authz { caller with role := r } c = delete_content_authz caller c) := by
  refine ⟨?_, ?_, fun r => ⟨rfl, rfl⟩⟩
  · unfold update_pathway_authz
    by_cases hid : p.creator_id = caller.id
    · simp [hid]
    · simp [hid]
      exact fun h => hid h.symm
  · unfold delete_content_authz
    by_cases hid : c.creator_id = caller.id
    · simp [hid]
    · simp [hid]
      exact fun h => hid h.symm

/-- C10: an attempt against an account whose `locked_until` is in the
future is rejected and mutates nothing: the evaluation returns `none`
and the stored record — counter, failure timestamp and lock included —
is exactly the input record. -/
theorem claim_C10_locked_frame (verify : String → String → Bool) (now : Nat)
    (u : User) (pw : String) (L : Nat)
    (hL : u.locked_until = some L) (hnow : now < L) :
    authenticate verify now u pw = (none, u) := by
  have hlock : u.is_locked now = true := by
    simp [User.is_locked, hL]
    omega
  simp [authenticate, hlock]

/-- C10 witness: a concrete locked account at a time before its
`locked_until` is rejected unchanged. -/
theorem claim_C10_locked_frame_witness :
    (mkUser 1 3 (some 10) true .student).locked_until = some 10 ∧ (5 : Nat) < 10 ∧
    authenticate (fun _ _ => true) 5 (mkUser 1 3 (some 10) true .student) "p"
      = (none, mkUser 1 3 (some 10) true .student) :=
  ⟨rfl, by decide,
    claim_C10_locked_frame (fun _ _ => true) 5 (mkUser 1 3 (some 10) true .student) "p" 10 rfl
      (by decide)⟩

/-- C9: the claim states that every password match records
`last_login = now`.  On this account (counter 0, `last_login` unset) a
match returns success yet leaves `last_login` unset: the assignment sits
inside the `failed_login_attempts > 0` branch. -/
theorem claim_C9_counterexample :
    (authenticate (fun _ _ => true) 42 (mkUser 1 0 none true .student) "p").1
      = some (mkUser 1 0 none true .student) ∧
    (authenticate (fun _ _ => true) 42 (mkUser 1 0 none true .student) "p").2.last_login
      ≠ some 42 := by
  exact ⟨rfl, by decide⟩

/-- C9 (amended): on a password match against an unlocked account,
`last_login` is set to `now` exactly when the prior failure counter was
positive; with a zero counter the whole success-bookkeeping block is
skipped and `last_login` keeps its previous value. -/
theorem claim_C9_last_login (verify : String → String → Bool) (now : Nat)
    (u : User) (pw : String)
    (hl : u.is_locked now = false) (hv : verify pw u.hashed_password = true) :
    (authenticate verify now u pw).1.isSome = true ∧
    (authenticate verify now u pw).2.last_login
      = if 0 < u.failed_login_attempts then some now else u.last_login := by
  by_cases hc : 0 < u.failed_login_attempts <;> simp [authenticate, hl, hv, hc]

/-- C9 witness: with prior counter 2 a match stamps `last_login`. -/
theorem claim_C9_last_login_witness :
    (authenticate (fun _ _ => true) 42 (mkUser 1 2 none true .student) "p").1.isSome = true ∧
    (authenticate (fun _ _ => true) 42 (mkUser 1 2 none true .student) "p").2.last_login
      = if 0 < (mkUser 1 2 none true .student).failed_login_attempts then some 42
        else (mkUser 1 2 none true .student).last_login :=
  claim_C9_last_login (fun _ _ => true) 42 (mkUser 1 2 none true .student) "p" rfl rfl

/-- C5: the claim states that an inactive account fails with a distinct
`AccountDisabled` outcome before password verification.  The evaluator
never reads `is_active`: this inactive, unlocked account with a matching
password is authenticated successfully. -/
theorem claim_C5_counterexample :
    get_by_email [mkUser 1 0 none false .student] "u@x" = some (mkUser 1 0 none false .student) ∧
    (mkUser 1 0 none false .student).is_active = false ∧
    (authenticate (fun _ _ => true) 0 (mkUser 1 0 none false .student) "p").1
      = some (mkUser 1 0 none false .student) := by
  exact ⟨by decide, rfl, rfl⟩

/-- C5 (amended): `authenticate` does not consult the active flag — an
inactive, unlocked account with a matching password authenticates, and
flipping `is_active` never changes whether an evaluation succeeds; only
the helper `can_login`, which `authenticate` never calls, reports an
inactive account as unable to log in.  There is no distinct
`AccountDisabled` outcome: every failure returns `none`. -/
theorem claim_C5_no_inactive_check (verify : String → String → Bool) (now : Nat)
    (u : User) (pw : String) (b : Bool)
    (hl : u.is_locked now = false) (hv : verify pw u.hashed_password = true) :
    (authenticate verify now u pw).1.isSome = true ∧
    ({ u with is_active := false } : User).can_login now = false ∧
    (authenticate verify now { u with is_active := b } pw).1.isSome
      = (authenticate verify now u pw).1.isSome := by
  have key : ∀ v : User, v.is_locked now = false → verify pw v.hashed_password = true →
      (authenticate verify now v pw).1.isSome = true := by
    intro v h1 h2
    by_cases hc : 0 < v.failed_login_attempts <;> simp [authenticate, h1, h2, hc]
  have hb : ({ u with is_active := b } : User).is_locked now = false := hl
  refine ⟨key u hl hv, ?_, ?_⟩
  · simp [User.can_login]
  · rw [key u hl hv, key { u with is_active := b } hb hv]

/-- C5 witness: the amended statement at a concrete inactive account. -/
theorem claim_C5_no_inactive_check_witness :
    (authenticate (fun _ _ => true) 0 (mkUser 1 0 none false .student) "p").1.isSome = true ∧
    ({ mkUser 1 0 none false .student with is_active := false } : User).can_login 0 = false :=
  ⟨(claim_C5_no_inactive_check (fun _ _ => true) 0 (mkUser 1 0 none false .student) "p" true
      rfl rfl).1,
   (claim_C5_no_inactive_check (fun _ _ => true) 0 (mkUser 1 0 none false .student) "p" true
      rfl rfl).2.1⟩

/-- C6: once `locked_until` has elapsed (`L ≤ now`), an evaluation with
the correct password succeeds, the returned record is exactly the stored
record, its failure counter is 0, and the account is seen as unlocked at
every time from `now` on — the lock check compares against the current
time, so no background clearing is needed. -/
theorem claim_C6_expired_lock_success (verify : String → String → Bool) (now L : Nat)
    (u : User) (pw : String)
    (hL : u.locked_until = some L) (he : L ≤ now)
    (hv : verify pw u.hashed_password = true) :
    (authenticate verify now u pw).1 = some ((authenticate verify now u pw).2) ∧
    (authenticate verify now u pw).2.failed_login_attempts = 0 ∧
    ∀ t, now ≤ t → (authenticate verify now u pw).2.is_locked t = false := by
  have hlock : u.is_locked now = false := by
    simp [User.is_locked, hL]
    omega
  by_cases hc : 0 < u.failed_login_attempts
  · have ha : authenticate verify now u pw
        = (some { u with
                  failed_login_attempts := 0
                  locked_until := none
                  last_login := some now },
            { u with
              failed_login_attempts := 0
              locked_until := none
              last_login := some now }) := by
      simp [authenticate, hlock, hv, hc]
    refine ⟨?_, ?_, ?_⟩
    · rw [ha]
    · rw [ha]
    · intro t ht
      rw [ha]
      simp [User.is_locked]
  · have h0 : u.failed_login_attempts = 0 := by omega
    have ha : authenticate verify now u pw = (some u, u) := by
      simp [authenticate, hlock, hv, hc]
    refine ⟨?_, ?_, ?_⟩
    · rw [ha]
    · rw [ha]
      exact h0
    · intro t ht
      rw [ha]
      simp [User.is_locked, hL]
      omega

/-- C6 witness: account with counter 5 locked until minute 10, correct
password at minute 10: success, counter 0, unlocked at minute 10. -/
theorem claim_C6_expired_lock_success_witness :
    (authenticate (fun _ _ => true) 10 (mkUser 1 5 (some 10) true .student) "p").1
      = some ((authenticate (fun _ _ => true) 10 (mkUser 1 5 (some 10) true .student) "p").2) ∧
    (authenticate (fun _ _ => true) 10
        (mkUser 1 5 (some 10) true .student) "p").2.failed_login_attempts = 0 ∧
    (authenticate (fun _ _ => true) 10
        (mkUser 1 5 (some 10) true .student) "p").2.is_locked 10 = false := by
  have h := claim_C6_expired_lock_success (fun _ _ => true) 10 10
    (mkUser 1 5 (some 10) true .student) "p" rfl (le_refl 10) rfl
  exact ⟨h.1, h.2.1, h.2.2 10 (le_refl 10)⟩

/-- C8: the claim states that the evaluator locks exactly when the
counter reaches the configured threshold, for every configured
threshold and window.  With threshold 3 and window 7 configured, an
account whose counter reaches 3 is not locked: the evaluator compares
against the literal 5 and adds the literal 15, ignoring `Settings`. -/
theorem claim_C8_counterexample :
    ¬ ∀ (s : Settings) (verify : String → String → Bool) (now : Nat) (u : User) (pw : String),
        u.is_locked now = false → verify pw u.hashed_password = false →
        ((authenticate verify now u pw).2.locked_until
            = some (now + s.LOGIN_ATTEMPT_WINDOW_MINUTES)
          ↔ s.LOGIN_ATTEMPT_LIMIT ≤ u.failed_login_attempts + 1) := by
  intro h
  have h2 := (h ⟨3, 7⟩ (fun _ _ => false) 0 (mkUser 1 2 none true .student) "p" rfl rfl).mpr
    (by decide)
  exact absurd h2 (by decide)

/-- C8 (amended): on a failed attempt against an unlocked account the
evaluator increments the counter, stamps the failure time, and sets
`locked_until = now + 15` exactly when the updated counter reaches the
literal threshold 5; these literals merely coincide with the defaults of
`Settings.LOGIN_ATTEMPT_LIMIT` and `Settings.LOGIN_ATTEMPT_WINDOW_MINUTES`,
which the evaluator never reads. -/
theorem claim_C8_hardcoded_threshold (verify : String → String → Bool) (now : Nat)
    (u : User) (pw : String)
    (hl : u.is_locked now = false) (hw : verify pw u.hashed_password = false) :
    (authenticate verify now u pw).2.failed_login_attempts = u.failed_login_attempts + 1 ∧
    (authenticate verify now u pw).2.last_failed_login = some now ∧
    (authenticate verify now u pw).2.locked_until
      = (if defaultSettings.LOGIN_ATTEMPT_LIMIT ≤ u.failed_login_attempts + 1
          then some (now + defaultSettings.LOGIN_ATTEMPT_WINDOW_MINUTES)
          else u.locked_until) ∧
    defaultSettings.LOGIN_ATTEMPT_LIMIT = 5 ∧
    defaultSettings.LOGIN_ATTEMPT_WINDOW_MINUTES = 15 := by
  refine ⟨?_, ?_, ?_, rfl, rfl⟩ <;> simp [authenticate, hl, hw, defaultSettings]

/-- C8 witness: counter 2 plus one failure gives 3, below the hardcoded
threshold 5, so no lock is set. -/
theorem claim_C8_hardcoded_threshold_witness :
    (authenticate (fun _ _ => false) 0
        (mkUser 1 2 none true .student) "p").2.failed_login_attempts
      = (mkUser 1 2 none true .student).failed_login_attempts + 1 ∧
    (authenticate (fun _ _ => false) 0 (mkUser 1 2 none true .student) "p").2.last_failed_login
      = some 0 ∧
    (authenticate (fun _ _ => false) 0 (mkUser 1 2 none true .student) "p").2.locked_until
      = (if defaultSettings.LOGIN_ATTEMPT_LIMIT
            ≤ (mkUser 1 2 none true .student).failed_login_attempts + 1
          then some (0 + defaultSettings.LOGIN_ATTEMPT_WINDOW_MINUTES)
          else (mkUser 1 2 none true .student).locked_until) ∧
    defaultSettings.LOGIN_ATTEMPT_LIMIT = 5 ∧
    defaultSettings.LOGIN_ATTEMPT_WINDOW_MINUTES = 15 :=
  claim_C8_hardcoded_threshold (fun _ _ => false) 0 (mkUser 1 2 none true .student) "p" rfl rfl

/-- C3: the claim states that the first attempt after lock expiry sees a
counter of 0 even on a password mismatch.  On an account locked until
minute 90 with counter 5, a wrong-password attempt at minute 100 takes
the counter to 6, not 0, and immediately re-locks until minute 115. -/
theorem claim_C3_counterexample :
    (mkUser 1 5 (some 90) true .student).locked_until = some 90 ∧
    (authenticate (fun _ _ => false) 100
        (mkUser 1 5 (some 90) true .student) "p").2.failed_login_attempts = 6 ∧
    (authenticate (fun _ _ => false) 100
        (mkUser 1 5 (some 90) true .student) "p").2.failed_login_attempts ≠ 0 ∧
    (authenticate (fun _ _ => false) 100
        (mkUser 1 5 (some 90) true .student) "p").2.locked_until = some 115 := by
  exact ⟨rfl, by decide, by decide, by decide⟩

/-- C3 (amended): the failure counter is 0 after every successful
evaluation (the only reset path), but lock expiry itself resets
nothing: a wrong-password attempt after `locked_until` has elapsed
continues from the pre-lock count and increments it. -/
theorem claim_C3_reset_on_success_only (verify : String → String → Bool) (now : Nat)
    (u : User) (pw : String) :
    (∀ u', (authenticate verify now u pw).1 = some u' → u'.failed_login_attempts = 0) ∧
    (∀ L, u.locked_until = some L → L ≤ now → verify pw u.hashed_password = false →
      (authenticate verify now u pw).2.failed_login_attempts
        = u.failed_login_attempts + 1) := by
  constructor
  · intro u' hu'
    by_cases hlock : u.is_locked now
    · simp [authenticate, hlock] at hu'
    · rw [Bool.not_eq_true] at hlock
      by_cases hv : verify pw u.hashed_password
      · by_cases hc : 0 < u.failed_login_attempts
        · simp [authenticate, hlock, hv, hc] at hu'
          rw [← hu']
        · have h0 : u.failed_login_attempts = 0 := by omega
          simp [authenticate, hlock, hv, hc] at hu'
          rw [← hu']
          exact h0
      · rw [Bool.not_eq_true] at hv
        simp [authenticate, hlock, hv] at hu'
  · intro L hL he hv
    have hlock : u.is_locked now = false := by
      simp [User.is_locked, hL]
      omega
    simp [authenticate, hlock, hv]

/-- C3 witness: counter 5, lock expired at minute 9, evaluated at
minute 10 — a match resets the counter to 0; a mismatch takes it to 6. -/
theorem claim_C3_reset_on_success_only_witness :
    (authenticate (fun _ _ => true) 10
        (mkUser 1 5 (some 9) true .student) "p").2.failed_login_attempts = 0 ∧
    (authenticate (fun _ _ => false) 10
        (mkUser 1 5 (some 9) true .student) "p").2.failed_login_attempts
      = (mkUser 1 5 (some 9) true .student).failed_login_attempts + 1 :=
  ⟨(claim_C3_reset_on_success_only (fun _ _ => true) 10
        (mkUser 1 5 (some 9) true .student) "p").1
      ((authenticate (fun _ _ => true) 10 (mkUser 1 5 (some 9) true .student) "p").2)
      (by decide),
   (claim_C3_reset_on_success_only (fun _ _ => false) 10
        (mkUser 1 5 (some 9) true .student) "p").2 9 rfl (by omega) rfl⟩

/-- C4: a successfully validated token is consumed in the same step, so
every later validation against the resulting slot fails, whatever value
or time is supplied; and a token whose expiry has passed (`e ≤ now`)
never validates.  (Token-lifecycle code is modelled from the spec; only
the hash/expiry columns exist in the sources.) -/
theorem claim_C4_single_use_and_expiry (hashOf : String → String) (now : Nat)
    (slot : TokenSlot) (v : String) :
    ((validateToken hashOf now slot v).1 = true →
      ∀ (now' : Nat) (v' : String),
        (validateToken hashOf now' (validateToken hashOf now slot v).2 v').1 = false) ∧
    (∀ e, slot.expires = some e → e ≤ now →
      (validateToken hashOf now slot v).1 = false) := by
  obtain ⟨hash, expires⟩ := slot
  constructor
  · intro hs now' v'
    cases hash with
    | none => simp [validateToken] at hs
    | some h =>
      cases expires with
      | none => simp [validateToken] at hs
      | some e =>
        by_cases hcond : (h == hashOf v && decide (now < e)) = true
        · simp [validateToken, hcond]
        · rw [Bool.not_eq_true] at hcond
          simp [validateToken, hcond] at hs
  · intro e he hnow
    simp only at he
    subst he
    cases hash with
    | none => simp [validateToken]
    | some h =>
      have hd : decide (now < e) = false := by
        simp
        omega
      simp [validateToken, hd]

/-- C4 witness: a fresh token validates once at minute 5, its consumed
slot rejects the same value at minute 7; a token expired at minute 3
fails at minute 5 without ever being used. -/
theorem claim_C4_single_use_and_expiry_witness :
    (validateToken (fun s => s) 7
        (validateToken (fun s => s) 5 { hash := some "t", expires := some 10 } "t").2 "t").1
      = false ∧
    (validateToken (fun s => s) 5 { hash := some "t", expires := some 3 } "t").1 = false :=
  ⟨(claim_C4_single_use_and_expiry (fun s => s) 5
        { hash := some "t", expires := some 10 } "t").1 (by decide) 7 "t",
   (claim_C4_single_use_and_expiry (fun s => s) 5
        { hash := some "t", expires := some 3 } "t").2 3 rfl (by decide)⟩

/-- C7: the Firebase-function login path never writes the store, and its
outcome depends only on the lookup's email match and the stored
`password_hash`: 200 exactly on a SHA-256 match, and two records that
agree on `password_hash` — whatever their `locked_until`, `is_active`,
`failed_login_attempts` or `last_login` — produce the same status.  The
lockout state machine of `User.authenticate` is bypassed entirely. -/
theorem claim_C7_lockout_bypass (sha256 : String → String) (db : List FnUser)
    (email pw : String) :
    (fnLogin sha256 db email pw).2 = db ∧
    (∀ u, db.find? (fun v => v.email == email) = some u →
      ((fnLogin sha256 db email pw).1 = 200 ↔ sha256 pw = u.password_hash)) ∧
    (∀ u1 u2 : FnUser, u1.password_hash = u2.password_hash →
      (fnLogin sha256 [u1] u1.email pw).1 = (fnLogin sha256 [u2] u2.email pw).1) := by
  refine ⟨?_, ?_, ?_⟩
  · cases hfind : db.find? (fun v => v.email == email) with
    | none => simp [fnLogin, hfind]
    | some u =>
      by_cases hv : fnVerifyPassword sha256 pw u.password_hash <;>
        simp [fnLogin, hfind, hv]
  · intro u hfind
    by_cases hv : sha256 pw = u.password_hash
    · simp [fnLogin, hfind, fnVerifyPassword, hv]
    · have hv' : (sha256 pw == u.password_hash) = false := by
        simp [hv]
      simp [fnLogin, hfind, fnVerifyPassword, hv', hv]
  · intro u1 u2 hp
    have e1 : ([u1].find? (fun v => v.email == u1.email)) = some u1 := by
      simp [List.find?]
    have e2 : ([u2].find? (fun v => v.email == u2.email)) = some u2 := by
      simp [List.find?]
    simp [fnLogin, e1, e2, fnVerifyPassword, hp]
    by_cases hv : sha256 pw = u2.password_hash <;> simp [hv]

/-- C7 witness: two rows sharing a password hash, one active and
unlocked with counter 0, the other inactive, locked until minute 99
with counter 7 — same status; the store is returned untouched and 200
is reached exactly on a hash match. -/
theorem claim_C7_lockout_bypass_witness :
    (fnLogin (fun s => s) [fnUserA] "e@x" "p").2 = [fnUserA] ∧
    ((fnLogin (fun s => s) [fnUserA] "e@x" "p").1 = 200 ↔ (fun s : String => s) "p" = fnUserA.password_hash) ∧
    (fnLogin (fun s => s) [fnUserA] fnUserA.email "p").1
      = (fnLogin (fun s => s) [fnUserB] fnUserB.email "p").1 :=
  ⟨(claim_C7_lockout_bypass (fun s => s) [fnUserA] "e@x" "p").1,
   (claim_C7_lockout_bypass (fun s => s) [fnUserA] "e@x" "p").2.1 fnUserA (by decide),
   (claim_C7_lockout_bypass (fun s => s) [fnUserA] "e@x" "p").2.2 fnUserA fnUserB rfl⟩

/-- C2: starting from a fresh account (counter 0, no lock), any `N ≥ 5`
consecutive failed evaluations at time `now` leave the account locked
until `now + 15`, and every evaluation before that instant — whatever
password is submitted, matching or not — is rejected without mutation.
(5 failures set the lock; further attempts are blocked unchanged.) -/
theorem claim_C2_lockout_after_failures (verify : String → String → Bool)
    (now N : Nat) (u : User) (wrong : String)
    (h0 : u.failed_login_attempts = 0) (hlu : u.locked_until = none)
    (hw : verify wrong u.hashed_password = false) (hN : 5 ≤ N) :
    ((fun v => (authenticate verify now v wrong).2)^[N] u).locked_until = some (now + 15) ∧
    ∀ (t : Nat) (pw : String), t < now + 15 →
      authenticate verify t ((fun v => (authenticate verify now v wrong).2)^[N] u) pw
        = (none, (fun v => (authenticate verify now v wrong).2)^[N] u) := by
  have hstep : ∀ v : User, v.locked_until = none →
      v.hashed_password = u.hashed_password →
      (authenticate verify now v wrong).2
        = { v with
            failed_login_attempts := v.failed_login_attempts + 1
            last_failed_login := some now
            locked_until :=
              if 5 ≤ v.failed_login_attempts + 1 then some (now + 15) else none } := by
    intro v h1 h2
    have hvl : v.is_locked now = false := by simp [User.is_locked, h1]
    simp [authenticate, hvl, h2, hw, h1]
  have hmid : ∀ k : Nat, k + 1 < 5 →
      (authenticate verify now
          { u with
            failed_login_attempts := k
            last_failed_login := some now
            locked_until := none } wrong).2
        = { u with
            failed_login_attempts := k + 1
            last_failed_login := some now
            locked_until := none } := by
    intro k hk
    rw [hstep
      { u with
        failed_login_attempts := k
        last_failed_login := some now
        locked_until := none } rfl rfl]
    simp [Nat.not_le.mpr hk]
  have hfirst : (authenticate verify now u wrong).2
      = { u with
          failed_login_attempts := 1
          last_failed_login := some now
          locked_until := none } := by
    rw [hstep u hlu rfl]
    simp [h0]
  have hlast : (authenticate verify now
      { u with
        failed_login_attempts := 4
        last_failed_login := some now
        locked_until := none } wrong).2
      = { u with
          failed_login_attempts := 5
          last_failed_login := some now
          locked_until := some (now + 15) } := by
    rw [hstep
      { u with
        failed_login_attempts := 4
        last_failed_login := some now
        locked_until := none } rfl rfl]
    simp
  have h5 : (fun v => (authenticate verify now v wrong).2)^[5] u
      = { u with
          failed_login_attempts := 5
          last_failed_login := some now
          locked_until := some (now + 15) } := by
    show (authenticate verify now ((authenticate verify now ((authenticate verify now
        ((authenticate verify now ((authenticate verify now u wrong).2) wrong).2)
          wrong).2) wrong).2) wrong).2 = _
    rw [hfirst, hmid 1 (by omega), hmid 2 (by omega), hmid 3 (by omega), hlast]
  have hfix : (authenticate verify now
      { u with
        failed_login_attempts := 5
        last_failed_login := some now
        locked_until := some (now + 15) } wrong).2
      = { u with
          failed_login_attempts := 5
          last_failed_login := some now
          locked_until := some (now + 15) } := by
    have hl : ({ u with
        failed_login_attempts := 5
        last_failed_login := some now
        locked_until := some (now + 15) } : User).is_locked now = true := by
      simp [User.is_locked]
    simp [authenticate, hl]
  obtain ⟨m, rfl⟩ : ∃ m, N = m + 5 := ⟨N - 5, by omega⟩
  have hN5 : (fun v => (authenticate verify now v wrong).2)^[m + 5] u
      = { u with
          failed_login_attempts := 5
          last_failed_login := some now
          locked_until := some (now + 15) } := by
    rw [Function.iterate_add_apply, h5, Function.iterate_fixed hfix]
  refine ⟨by rw [hN5], ?_⟩
  intro t pw ht
  rw [hN5]
  have hl : ({ u with
      failed_login_attempts := 5
      last_failed_login := some now
      locked_until := some (now + 15) } : User).is_locked t = true := by
    simp [User.is_locked]
    omega
  simp [authenticate, hl]

/-- C2 witness: five wrong-password evaluations at minute 0 lock a fresh
account until minute 15, and a sixth attempt before that instant is
rejected unchanged. -/
theorem claim_C2_lockout_after_failures_witness :
    ((fun v => (authenticate (fun _ _ => false) 0 v "w").2)^[5]
        (mkUser 1 0 none true .student)).locked_until = some 15 ∧
    authenticate (fun _ _ => false) 3
        ((fun v => (authenticate (fun _ _ => false) 0 v "w").2)^[5]
          (mkUser 1 0 none true .student)) "w"
      = (none,
          (fun v => (authenticate (fun _ _ => false) 0 v "w").2)^[5]
            (mkUser 1 0 none true .student)) := by
  have h := claim_C2_lockout_after_failures (fun _ _ => false) 0 5
    (mkUser 1 0 none true .student) "w" rfl rfl rfl (le_refl 5)
  exact ⟨by simpa using h.1, by simpa using h.2 3 "w" (by omega)⟩

end KP
